import Mathlib

/-!
Verification of the project-classification and generation core of the
cicd-framework CLI (src/core/base_detector.py, src/core/base_generator.py,
src/frameworks/python/detector.py, src/frameworks/python/generator.py,
src/frameworks/__init__.py, src/cli/main.py).

The filesystem seen by a detector is modelled by `Project`:
  * `files` is the list of entries addressed by a relative name from the
    project root (the names the detectors pass to `file_exists`/`read_file`);
    an entry records whether `stat` succeeds and whether the content is
    decodable, so that the error paths of the evidence readers are visible.
  * `extensions` records, for an extension `ext`, whether the recursive
    glob `rglob("*.{ext}")` of `BaseDetector.has_files_with_extension`
    finds at least one match anywhere in the tree.
  * `dirs` lists the immediate subdirectories in `iterdir` order, each
    paired with whether it contains an `__init__.py` file
    (`BaseGenerator._is_valid_module` / the Python override).
  * `pytestImports` is the result of the `PythonDetector._has_pytest_imports`
    scan over `tests/` and `test/`.

Strings are processed as `List Char`; Python `str.split(sep)`, `str.strip()`,
`str.lower()` and the concrete regular expressions of the detectors are
translated into explicit character-list functions.  The Jinja2 template
engine and the write layer are external collaborators (spec section 1); they
are modelled by `TemplateEnv`, whose `render` may fail (TemplateError) and
whose `writeFails` marks paths whose write raises (FileWriteError).
-/

/-- Outcome of accessing one filesystem entry by name.  `readable c` means
`stat` succeeds and `read_text()` returns `c`; `unreadable` means `stat`
succeeds but `read_text()` raises (permission error or non-UTF8 bytes);
`statError` means `stat` itself fails (for example a symlink loop), in which
case `pathlib.Path.exists()` reports `False`. -/
inductive Entry where
  | readable (content : String)
  | unreadable
  | statError
deriving DecidableEq

/-- Model of the project directory tree, as described in the module header. -/
structure Project where
  files : List (String × Entry)
  extensions : List String
  dirs : List (String × Bool)
  pytestImports : Bool

/-- Entry stored under `name`, if any. -/
def lookupEntry (p : Project) (name : String) : Option Entry :=
  (p.files.find? (fun e => e.1 = name)).map (·.2)

/-- BaseDetector.file_exists: `(self.project_path / filename).exists()`.
`Path.exists` swallows `OSError`, so a `statError` entry reports `false`. -/
def file_exists (p : Project) (name : String) : Bool :=
  match lookupEntry p name with
  | some (.readable _) => true
  | some .unreadable => true
  | some .statError => false
  | none => false

/-- Raw `Path.read_text()`: fails on a missing, undecodable or
stat-failing entry.  This is the primitive the safe reader wraps. -/
def rawRead (p : Project) (name : String) : Except Unit String :=
  match lookupEntry p name with
  | some (.readable c) => Except.ok c
  | _ => Except.error ()

/-- BaseDetector.read_file: returns the content when the file exists and is
readable, and the empty string on every failure path (the `try`/`except`
around `if file_path.exists(): return file_path.read_text()`). -/
def read_file (p : Project) (name : String) : String :=
  if file_exists p name then
    match rawRead p name with
    | Except.ok c => c
    | Except.error _ => ""
  else ""

/-- BaseDetector.has_files_with_extension: `bool(list(rglob("*.ext")))`,
abstracted by the `extensions` summary of the recursive tree. -/
def has_files_with_extension (p : Project) (ext : String) : Bool :=
  p.extensions.contains ext

/-! ## Shared string utilities (Python `str` methods on `List Char`) -/

/-- Python `str.split(sep)` for a one-character separator: `splitSep c l`
cuts `l` at every occurrence of `c`; `splitSep c [] = [[]]`, matching
`"".split(sep) == [""]`. -/
def splitSep (sep : Char) : List Char → List (List Char)
  | [] => [[]]
  | c :: rest =>
    if c = sep then [] :: splitSep sep rest
    else
      match splitSep sep rest with
      | h :: t => (c :: h) :: t
      | [] => [[c]]

/-- Whitespace stripped by Python `str.strip()`; restricted to the ASCII
whitespace characters, which are the only ones the detectors encounter. -/
def pyIsSpace (c : Char) : Bool :=
  c = ' ' || c = '\t' || c = '\n' || c = '\r' || c = '\x0b' || c = '\x0c'

/-- Python `str.strip()` on a character list. -/
def pyStrip (l : List Char) : List Char :=
  ((l.dropWhile pyIsSpace).reverse.dropWhile pyIsSpace).reverse

/-- Python `str.lower()` on a character list (ASCII letters). -/
def pyLower (l : List Char) : List Char :=
  l.map Char.toLower

/-- Python `pat in hay` substring containment on character lists. -/
def containsSub (pat : List Char) : List Char → Bool
  | [] => pat.isEmpty
  | c :: t => pat.isPrefixOf (c :: t) || containsSub pat t

/-- Python `pat in s` on strings. -/
def strContains (s pat : String) : Bool :=
  containsSub pat.toList s.toList

/-! ## Version normalization (BaseDetector.normalize_version) -/

/-- BaseDetector.normalize_version: `version.split('.')`; if at least two
components, rejoin the first two with a dot, otherwise return the string
unchanged. -/
def normalize_version (version : String) : String :=
  match splitSep '.' version.toList with
  | a :: b :: _ => (a ++ '.' :: b).asString
  | _ => version

/-! ## Dependency parsing (BaseDetector.parse_dependencies_from_file) -/

/-- Characters at which `re.split(r'[=<>~!]', line)` cuts: the version
operators of a requirement line. -/
def isVersionOp (c : Char) : Bool :=
  c = '=' || c = '<' || c = '>' || c = '~' || c = '!'

/-- One iteration of the parsing loop: `line.strip().lower()`, skip empty,
comment (`#`) and continuation (`-r`) lines, otherwise keep the stripped
text before the first version operator when it is non-empty. -/
def parseDepLine (line : List Char) : Option (List Char) :=
  let l := pyLower (pyStrip line)
  if l.isEmpty || ['#'].isPrefixOf l || ['-', 'r'].isPrefixOf l then none
  else
    let pkg := pyStrip (l.takeWhile (fun c => !isVersionOp c))
    if pkg.isEmpty then none else some pkg

/-- Set of dependency names contributed by a list of lines. -/
def depsOfLines (lines : List (List Char)) : Finset String :=
  ((lines.filterMap parseDepLine).map List.asString).toFinset

/-- BaseDetector.parse_dependencies_from_file applied to already-read
content: split on newlines and collect the per-line names into a set. -/
def parse_dependencies (content : String) : Finset String :=
  depsOfLines (splitSep '\n' content.toList)

/-- BaseDetector.parse_dependencies_from_file. -/
def parse_dependencies_from_file (p : Project) (filename : String) : Finset String :=
  parse_dependencies (read_file p filename)

/-! ## Regular-expression scanners used by the Python detector

`re.search` scans for the leftmost match; each pattern below is translated
into an explicit matcher tried at every start position.  `\d` is taken as
the ASCII digits and `\s` as the ASCII whitespace class `[ \t\n\r\x0b\x0c]`,
which is what the manifests the detector reads contain. -/

/-- Leftmost search: try the matcher at each start position of the text and
return the first capture. -/
def reSearch (f : List Char → Option (List Char)) : List Char → Option (List Char)
  | [] => none
  | c :: rest =>
    match f (c :: rest) with
    | some cap => some cap
    | none => reSearch f rest

/-- Matcher for `\d+\.\d+` anchored at the start of the text: returns the
matched characters and the remaining text.  Both `\d+` are greedy; the
character classes are disjoint from `.`, so no backtracking arises. -/
def matchVersionCore (l : List Char) : Option (List Char × List Char) :=
  let d1 := l.takeWhile Char.isDigit
  let r1 := l.dropWhile Char.isDigit
  if d1.isEmpty then none
  else
    match r1 with
    | '.' :: r2 =>
      let d2 := r2.takeWhile Char.isDigit
      let r3 := r2.dropWhile Char.isDigit
      if d2.isEmpty then none else some (d1 ++ '.' :: d2, r3)
    | _ => none

/-- The optional-greedy `(?:\.\d+)?` tail of the runtime.txt pattern:
extend the capture when a dot and at least one digit follow. -/
def matchOptPatch (cap r : List Char) : List Char :=
  match r with
  | '.' :: r2 =>
    let d3 := r2.takeWhile Char.isDigit
    if d3.isEmpty then cap else cap ++ '.' :: d3
  | _ => cap

/-- Matcher for the runtime.txt pattern `python-(\d+\.\d+(?:\.\d+)?)`
anchored at the start of the text, returning the capture group. -/
def matchRuntimeAt (l : List Char) : Option (List Char) :=
  if ['p', 'y', 't', 'h', 'o', 'n', '-'].isPrefixOf l then
    match matchVersionCore (l.drop 7) with
    | some (cap, r) => some (matchOptPatch cap r)
    | none => none
  else none

/-- Matcher for the common tail `\s*=\s*["'][klass]*(\d+\.\d+)` of the
pyproject.toml and setup.py version patterns, anchored at the start of the
text, where `klass` is the operator character class before the digits. -/
def matchAssignVersion (klass : List Char) (l : List Char) : Option (List Char) :=
  match l.dropWhile pyIsSpace with
  | '=' :: r2 =>
    match r2.dropWhile pyIsSpace with
    | q :: r4 =>
      if q = '"' || q = '\'' then
        (matchVersionCore (r4.dropWhile (fun c => klass.contains c))).map (·.1)
      else none
    | [] => none
  | _ => none

/-- Matcher for the pyproject.toml pattern
`python\s*=\s*["\'][\^~>=]*(\d+\.\d+)` anchored at the start of the text. -/
def matchPyprojectAt (l : List Char) : Option (List Char) :=
  if ['p', 'y', 't', 'h', 'o', 'n'].isPrefixOf l then
    matchAssignVersion ['^', '~', '>', '='] (l.drop 6)
  else none

/-- Matcher for the setup.py pattern
`python_requires\s*=\s*["\'][>=~]*(\d+\.\d+)` anchored at the start. -/
def matchSetupAt (l : List Char) : Option (List Char) :=
  if ['p', 'y', 't', 'h', 'o', 'n', '_', 'r', 'e', 'q', 'u', 'i', 'r', 'e', 's'].isPrefixOf l then
    matchAssignVersion ['>', '=', '~'] (l.drop 15)
  else none

/-- BaseDetector.extract_version_from_content for a fixed pattern: the
normalized first capture of `re.search`, or nothing. -/
def extract_version_from_content (matcher : List Char → Option (List Char))
    (content : String) : Option String :=
  (reSearch matcher content.toList).map (fun cap => normalize_version cap.asString)

/-! ## PythonDetector (src/frameworks/python/detector.py) -/

/-- Characters matched by the class `[a-z0-9\-_]` of the pyproject
dependency grab. -/
def isDepNameChar (c : Char) : Bool :=
  ('a' ≤ c && c ≤ 'z') || ('0' ≤ c && c ≤ '9') || c = '-' || c = '_'

/-- One attempted match of `["\']([a-z0-9\-_]+)["\']` directly after an
opening quote: the greedy name characters followed by a closing quote
(either quote kind).  Returns the capture and the text after the match. -/
def depSpan (l : List Char) : Option (List Char × List Char) :=
  let tok := l.takeWhile isDepNameChar
  match l.dropWhile isDepNameChar with
  | q :: r => if (q = '"' || q = '\'') && !tok.isEmpty then some (tok, r) else none
  | [] => none

/-- Fuelled scan of `re.findall(r'["\']([a-z0-9\-_]+)["\']', text)`:
non-overlapping leftmost matches, resuming after each match. -/
def findallDepsAux : Nat → List Char → List (List Char)
  | 0, _ => []
  | _ + 1, [] => []
  | fuel + 1, c :: rest =>
    if c = '"' || c = '\'' then
      match depSpan rest with
      | some (tok, r) => tok :: findallDepsAux fuel r
      | none => findallDepsAux fuel rest
    else findallDepsAux fuel rest

/-- `re.findall(r'["\']([a-z0-9\-_]+)["\']', text)`; the fuel is the text
length, which bounds the number of scan steps. -/
def findallDeps (l : List Char) : List (List Char) :=
  findallDepsAux l.length l

/-- PythonDetector._read_all_dependencies: union of requirements.txt,
requirements-dev.txt and, when pyproject.toml has content, every quoted
name found in its lowercased text. -/
def _read_all_dependencies (p : Project) : Finset String :=
  let base := parse_dependencies_from_file p "requirements.txt" ∪
    parse_dependencies_from_file p "requirements-dev.txt"
  let pyproject := read_file p "pyproject.toml"
  if pyproject.isEmpty then base
  else base ∪ ((findallDeps (pyLower pyproject.toList)).map List.asString).toFinset

/-- PythonDetector._detect_framework: priority order fastapi, flask,
django over the dependency set; no match means a generic project. -/
def _detect_framework (p : Project) : Option String :=
  let deps := _read_all_dependencies p
  if "fastapi" ∈ deps then some "fastapi"
  else if "flask" ∈ deps then some "flask"
  else if "django" ∈ deps then some "django"
  else none

/-- PythonDetector._detect_package_manager. -/
def _detect_package_manager (p : Project) : String :=
  if file_exists p "poetry.lock" then "poetry"
  else if file_exists p "Pipfile" then "pipenv"
  else if file_exists p "requirements.txt" then "pip"
  else if strContains (read_file p "pyproject.toml") "[tool.poetry]" then "poetry"
  else "pip"

/-- Step 2 of the version chain: the runtime.txt signal
(`python-(\d+\.\d+(?:\.\d+)?)` over a non-empty runtime.txt). -/
def runtimeSignal (p : Project) : Option String :=
  let content := read_file p "runtime.txt"
  if content.isEmpty then none
  else extract_version_from_content matchRuntimeAt content

/-- Step 3 of the version chain: the pyproject.toml signal
(`python\s*=\s*["\'][\^~>=]*(\d+\.\d+)` over a non-empty pyproject.toml). -/
def pyprojectSignal (p : Project) : Option String :=
  let content := read_file p "pyproject.toml"
  if content.isEmpty then none
  else extract_version_from_content matchPyprojectAt content

/-- Step 4 of the version chain: the setup.py signal
(`python_requires\s*=\s*["\'][>=~]*(\d+\.\d+)` over a non-empty setup.py). -/
def setupSignal (p : Project) : Option String :=
  let content := read_file p "setup.py"
  if content.isEmpty then none
  else extract_version_from_content matchSetupAt content

/-- PythonDetector._detect_python_version: .python-version, then
runtime.txt, then pyproject.toml, then setup.py, then the hard-coded
default "3.11".  All capture groups are non-empty, so a produced version
string is never falsy and each `if version: return version` is a plain
first-hit. -/
def _detect_python_version (p : Project) : String :=
  if file_exists p ".python-version" then
    normalize_version (pyStrip (read_file p ".python-version").toList).asString
  else
    match runtimeSignal p with
    | some v => v
    | none =>
      match pyprojectSignal p with
      | some v => v
      | none =>
        match setupSignal p with
        | some v => v
        | none => "3.11"

/-- PythonDetector._detect_test_framework: pytest.ini, then the
`[tool.pytest` marker in pyproject.toml, then the `[tool:pytest]` or
`[pytest]` markers in setup.cfg, then the dependency set, then the
test-file import scan, then the default — every branch yields "pytest". -/
def _detect_test_framework (p : Project) : String :=
  if file_exists p "pytest.ini" then "pytest"
  else if strContains (read_file p "pyproject.toml") "[tool.pytest" then "pytest"
  else if strContains (read_file p "setup.cfg") "[tool:pytest]" ||
      strContains (read_file p "setup.cfg") "[pytest]" then "pytest"
  else if "pytest" ∈ _read_all_dependencies p then "pytest"
  else if p.pytestImports then "pytest"
  else "pytest"

/-- Dictionary returned by PythonDetector.detect (and dict-shaped results
generally): each field is the value `dict.get(key)` observes, `none` when
the key is absent or stores Python `None`. -/
structure DetectionResult where
  language : Option String
  framework : Option String
  package_manager : Option String
  python_version : Option String
  test_framework : Option String
deriving DecidableEq

/-- PythonDetector.detect: gated on a `.py` file anywhere in the tree,
then assembles the descriptor from the signal functions. -/
def PythonDetector_detect (p : Project) : Option DetectionResult :=
  if has_files_with_extension p "py" then
    some
      { language := some "python"
        framework := _detect_framework p
        package_manager := some (_detect_package_manager p)
        python_version := some (_detect_python_version p)
        test_framework := some (_detect_test_framework p) }
  else none

/-! ## The other ecosystem detectors and the dispatcher
(src/frameworks/node|maven|gradle|java|dotnet/detector.py,
src/frameworks/__init__.py, src/cli/main.py) -/

/-- Descriptor returned by the generic Java fallback detector. -/
structure JavaDescriptor where
  language : String
  build_tool : String
  framework : Option String
  java_version : String
  test_framework : String
deriving DecidableEq

/-- JavaDetector.detect: only fires when `.java` files exist and none of
pom.xml, build.gradle, build.gradle.kts exists; the descriptor it returns
is a constant. -/
def JavaDetector_detect (p : Project) : Option JavaDescriptor :=
  if ¬has_files_with_extension p "java" then none
  else if file_exists p "pom.xml" || file_exists p "build.gradle" ||
      file_exists p "build.gradle.kts" then none
  else
    some
      { language := "java"
        build_tool := "none"
        framework := none
        java_version := "17"
        test_framework := "junit5" }

/-- NodeDetector.detect fires exactly when package.json exists (its signal
helpers are total and never veto). -/
def NodeDetector_detects (p : Project) : Bool :=
  file_exists p "package.json"

/-- MavenDetector.detect fires exactly when pom.xml exists (its signal
helpers catch their own parse errors and always produce defaults). -/
def MavenDetector_detects (p : Project) : Bool :=
  file_exists p "pom.xml"

/-- GradleDetector.detect fires exactly when build.gradle or
build.gradle.kts exists. -/
def GradleDetector_detects (p : Project) : Bool :=
  file_exists p "build.gradle" || file_exists p "build.gradle.kts"

/-- DotNetDetector.detect fires exactly when a `.csproj` or `.sln` file
exists anywhere in the tree. -/
def DotNetDetector_detects (p : Project) : Bool :=
  has_files_with_extension p "csproj" || has_files_with_extension p "sln"

/-- Registry iteration order of frameworks/__init__.py
(`AVAILABLE_FRAMEWORKS`), which `cli.main.init`/`detect` walk with
`for fw_name in frameworks_to_try` when no framework is forced. -/
def AVAILABLE_FRAMEWORKS : List String :=
  ["python", "node", "maven", "gradle", "java", "dotnet"]

/-- Whether the named ecosystem's detector returns a result
(`detector.detect() is not None`). -/
def detects (name : String) (p : Project) : Bool :=
  match name with
  | "python" => (PythonDetector_detect p).isSome
  | "node" => NodeDetector_detects p
  | "maven" => MavenDetector_detects p
  | "gradle" => GradleDetector_detects p
  | "java" => (JavaDetector_detect p).isSome
  | "dotnet" => DotNetDetector_detects p
  | _ => false

/-- Auto-detection loop of cli.main: first registry entry whose detector
matches, or `none` (the "No supported framework detected" exit). -/
def dispatch (p : Project) : Option String :=
  AVAILABLE_FRAMEWORKS.find? (fun n => detects n p)

/-! ## PythonGenerator (src/core/base_generator.py,
src/frameworks/python/generator.py)

The project path probed by `_prepare_context` is passed as the `Project`
summary of that directory together with its base name (`Path.name`); the
current time formatted by `add_base_context` is the `now` argument. -/

/-- Jinja2 template context assembled by PythonGenerator._prepare_context
on top of BaseGenerator.add_base_context.  Every template-facing key is a
field, so a template can never observe an absent key. -/
structure TemplateContext where
  project_name : String
  generation_date : String
  language : Option String
  framework : Option String
  python_version : String
  package_manager : String
  test_framework : String
  app_module : String
  has_requirements_txt : Bool
  has_requirements_dev : Bool
  has_tests : Bool
  build_package : Bool
  enable_linting : Bool
  enable_security_scan : Bool
  enable_docker : Bool
  docker_base_image : String
  docker_port : Nat
  has_pyproject_toml : Bool
  has_setup_py : Bool
deriving DecidableEq

/-- External collaborators of the generator: the Jinja2 environment over
the ecosystem's templates directory and the file-writing layer.
`templateExists t` is `(templates_dir / t).exists()`; `render` is
`render(templateId, context)` and fails with a TemplateError message when
the template is missing or rendering raises; `writeFails path` marks the
paths whose `write_text` raises (FileWriteError). -/
structure TemplateEnv where
  templateExists : String → Bool
  render : String → TemplateContext → Except String String
  writeFails : String → Bool

/-- One entry of the platform template map. -/
structure TemplateConfig where
  template : String
  output : String
deriving DecidableEq

/-- PythonGenerator.get_platform_template_map. -/
def get_platform_template_map : List (String × TemplateConfig) :=
  [("jenkins", { template := "Jenkinsfile.j2", output := "Jenkinsfile" }),
   ("gitlab", { template := "gitlab-ci.yml.j2", output := ".gitlab-ci.yml" }),
   ("github", { template := "github-actions.yml.j2", output := ".github/workflows/ci.yml" })]

/-- Directory `d` under the project root exists and contains __init__.py
(`candidate_path.is_dir() and self._is_valid_module(candidate_path)`). -/
def dirHasInit (p : Project) (d : String) : Bool :=
  ((p.dirs.find? (fun e => e.1 = d)).map (·.2)).getD false

/-- Directory `d` exists under the project root. -/
def dirExists (p : Project) (d : String) : Bool :=
  (p.dirs.find? (fun e => e.1 = d)).isSome

/-- Default exclusion list of BaseGenerator.detect_app_module. -/
def exclude_dirs : List String :=
  ["tests", "test", "docs", "scripts", "venv", ".venv", "templates", "node_modules"]

/-- BaseGenerator.detect_app_module with the Python `_is_valid_module`
override: first of app, src, cli, the project name that is a module
directory; otherwise the first non-excluded module directory in
iteration order; otherwise "app". -/
def detect_app_module (p : Project) (projName : String) : String :=
  match ["app", "src", "cli", projName].find? (fun c => dirHasInit p c) with
  | some c => c
  | none =>
    match p.dirs.find? (fun d => !exclude_dirs.contains d.1 && d.2) with
    | some d => d.1
    | none => "app"

/-- PythonGenerator._has_tests: a `tests` or `test` directory exists. -/
def _has_tests (p : Project) : Bool :=
  dirExists p "tests" || dirExists p "test"

/-- PythonGenerator._is_library: setup.py exists, or pyproject.toml exists
and its readable content mentions `[build-system]` or `[tool.poetry]`
(a read failure falls through to False). -/
def _is_library (p : Project) : Bool :=
  if file_exists p "setup.py" then true
  else if file_exists p "pyproject.toml" then
    match rawRead p "pyproject.toml" with
    | Except.ok content =>
      strContains content "[build-system]" || strContains content "[tool.poetry]"
    | Except.error _ => false
  else false

/-- PythonGenerator._get_framework_port: framework→port table with default
8000; a missing or falsy (empty) framework name also yields 8000. -/
def _get_framework_port (framework : Option String) : Nat :=
  match framework with
  | none => 8000
  | some f =>
    if f.isEmpty then 8000
    else if f.toLower = "flask" then 5000
    else if f.toLower = "django" then 8000
    else if f.toLower = "fastapi" then 8000
    else if f.toLower = "starlette" then 8000
    else if f.toLower = "tornado" then 8888
    else if f.toLower = "aiohttp" then 8080
    else 8000

/-- PythonGenerator._prepare_context over BaseGenerator.add_base_context:
`projName` is `project_path.name` and `now` the formatted
`datetime.now()` timestamp. -/
def _prepare_context (det : DetectionResult) (p : Project) (projName now : String) :
    TemplateContext :=
  { project_name := if projName.isEmpty then "my-app" else projName
    generation_date := now
    language := det.language
    framework := det.framework
    python_version := det.python_version.getD "3.11"
    package_manager := det.package_manager.getD "pip"
    test_framework := det.test_framework.getD "pytest"
    app_module := detect_app_module p projName
    has_requirements_txt := file_exists p "requirements.txt"
    has_requirements_dev := file_exists p "requirements-dev.txt"
    has_tests := _has_tests p
    build_package := _is_library p
    enable_linting := true
    enable_security_scan := true
    enable_docker := true
    docker_base_image := "python:" ++ det.python_version.getD "3.11" ++ "-slim"
    docker_port := _get_framework_port det.framework
    has_pyproject_toml := file_exists p "pyproject.toml"
    has_setup_py := file_exists p "setup.py" }

/-- Python dict assignment `d[k] = v` on an insertion-ordered
association list: replace in place or append. -/
def dictInsert : List (String × String) → String → String → List (String × String)
  | [], k, v => [(k, v)]
  | e :: m, k, v => if e.1 = k then (k, v) :: m else e :: dictInsert m k v

/-- Value stored under `k`, if any (first, hence unique, occurrence). -/
def dictLookup : List (String × String) → String → Option String
  | [], _ => none
  | e :: m, k => if e.1 = k then some e.2 else dictLookup m k

/-- Whether `k` is a key of the dictionary. -/
def dictHas (m : List (String × String)) (k : String) : Bool :=
  (dictLookup m k).isSome

/-- BaseGenerator.generate_file_from_template: render then write; either
failure surfaces as the caught exception. -/
def attempt (env : TemplateEnv) (tmpl : String) (ctx : TemplateContext)
    (path : String) : Except String String :=
  match env.render tmpl ctx with
  | Except.error e => Except.error e
  | Except.ok content =>
    if env.writeFails path then Except.error ("Failed to write file " ++ path)
    else Except.ok content

/-- Whether render-and-write succeeds. -/
def attemptOk (env : TemplateEnv) (tmpl : String) (ctx : TemplateContext)
    (path : String) : Bool :=
  (attempt env tmpl ctx path).toBool

/-- Running state of a generate call: the generated_files dictionary, the
printed warning lines, and the file writes performed in order. -/
structure GenAcc where
  files : List (String × String)
  notes : List String
  writes : List (String × String)
deriving DecidableEq

/-- Body of the per-platform loop of PythonGenerator.generate: unknown
platforms are skipped with a printed note; a render or write failure is
caught and noted; success records `generated_files[platform]` and the
written file. -/
def stepPlatform (env : TemplateEnv) (ctx : TemplateContext) (outDir : String)
    (acc : GenAcc) (platform : String) : GenAcc :=
  match get_platform_template_map.find? (fun e => e.1 = platform) with
  | none => { acc with notes := acc.notes ++ ["Skipping unknown platform: " ++ platform] }
  | some e =>
    let path := outDir ++ "/" ++ e.2.output
    match attempt env e.2.template ctx path with
    | Except.ok content =>
      { files := dictInsert acc.files platform path
        notes := acc.notes
        writes := acc.writes ++ [(path, content)] }
    | Except.error _ =>
      { acc with notes := acc.notes ++ ["Failed to generate " ++ platform] }

/-- The `for platform in platforms` loop. -/
def genLoop (env : TemplateEnv) (ctx : TemplateContext) (outDir : String) :
    GenAcc → List String → GenAcc
  | acc, [] => acc
  | acc, platform :: rest => genLoop env ctx outDir (stepPlatform env ctx outDir acc platform) rest

/-- One block of PythonGenerator._generate_additional_files: if the
template file exists, attempt render-and-write under the fixed key, with
the same isolate-and-continue policy. -/
def addExtra (env : TemplateEnv) (ctx : TemplateContext) (outDir : String)
    (tmpl outName key : String) (acc : GenAcc) : GenAcc :=
  if env.templateExists tmpl then
    let path := outDir ++ "/" ++ outName
    match attempt env tmpl ctx path with
    | Except.ok content =>
      { files := dictInsert acc.files key path
        notes := acc.notes
        writes := acc.writes ++ [(path, content)] }
    | Except.error _ =>
      { acc with notes := acc.notes ++ ["Could not generate " ++ outName] }
  else acc

/-- PythonGenerator._generate_additional_files: Dockerfile, then
docker-compose.yml, then CICD_README.md. -/
def _generate_additional_files (env : TemplateEnv) (ctx : TemplateContext)
    (outDir : String) (acc : GenAcc) : GenAcc :=
  addExtra env ctx outDir "README.md.j2" "CICD_README.md" "readme"
    (addExtra env ctx outDir "docker-compose.yml.j2" "docker-compose.yml" "docker_compose"
      (addExtra env ctx outDir "Dockerfile.j2" "Dockerfile" "dockerfile" acc))

/-- Return value of PythonGenerator.generate, extended with the warning
notes and the write trace of the invocation. -/
structure GenResult where
  context : TemplateContext
  generated_files : List (String × String)
  notes : List String
  writes : List (String × String)
deriving DecidableEq

/-- PythonGenerator.generate.  `platforms = none` models the omitted
argument (Python `platforms=None`), which alone triggers the
`['jenkins']` default; `projFS`/`projName` describe the directory at
`detection_result.get('project_path', output_dir)`. -/
def PythonGenerator_generate (env : TemplateEnv) (det : DetectionResult)
    (projFS : Project) (projName now outDir : String)
    (platforms : Option (List String)) : GenResult :=
  let ps := platforms.getD ["jenkins"]
  let ctx := _prepare_context det projFS projName now
  let acc := _generate_additional_files env ctx outDir
    (genLoop env ctx outDir { files := [], notes := [], writes := [] } ps)
  { context := ctx
    generated_files := acc.files
    notes := acc.notes
    writes := acc.writes }

/-- Whether the per-platform branch of generate succeeds for `platform`:
it is a key of the template map and render-and-write succeeds on its
template and output path. -/
def platformOk (env : TemplateEnv) (ctx : TemplateContext) (outDir platform : String) : Bool :=
  match get_platform_template_map.find? (fun e => e.1 = platform) with
  | none => false
  | some e => attemptOk env e.2.template ctx (outDir ++ "/" ++ e.2.output)

/-- Whether `k` is one of the additional-file keys that generate records:
the template exists and render-and-write succeeds on the fixed path. -/
def extrasHas (env : TemplateEnv) (ctx : TemplateContext) (outDir k : String) : Bool :=
  (k = "dockerfile" && env.templateExists "Dockerfile.j2" &&
    attemptOk env "Dockerfile.j2" ctx (outDir ++ "/" ++ "Dockerfile")) ||
  (k = "docker_compose" && env.templateExists "docker-compose.yml.j2" &&
    attemptOk env "docker-compose.yml.j2" ctx (outDir ++ "/" ++ "docker-compose.yml")) ||
  (k = "readme" && env.templateExists "README.md.j2" &&
    attemptOk env "README.md.j2" ctx (outDir ++ "/" ++ "CICD_README.md"))

/-- Last write to `k` in a write trace, scanning from the end. -/
def lastW : List (String × String) → String → Option String
  | [], _ => none
  | w :: ws, k =>
    match lastW ws k with
    | some v => some v
    | none => if w.1 = k then some w.2 else none

/-- Replay a write trace over a directory state: each write overwrites the
file at its path (`write_text`, no merge or diff logic). -/
def applyWrites (fs : List (String × String)) (ws : List (String × String)) :
    List (String × String) :=
  ws.foldl (fun m w => dictInsert m w.1 w.2) fs

/-! ## Concrete projects and template environments used by the theorems -/

/-- Modelled from the spec: the template files shipped in the python
ecosystem's templates directory are not part of src/; per sections 4.6 and
8 of the spec the three platform templates and the container build file
template exist and render successfully, and `render` is a pure function of
the template id and the context. -/
def specTemplates : List String :=
  ["Jenkinsfile.j2", "gitlab-ci.yml.j2", "github-actions.yml.j2", "Dockerfile.j2"]

/-- Modelled from the spec: template environment over `specTemplates`
whose renders and writes all succeed. -/
def specEnv : TemplateEnv :=
  { templateExists := fun t => specTemplates.contains t
    render := fun t _ =>
      if specTemplates.contains t then Except.ok ("rendered " ++ t)
      else Except.error ("template not found: " ++ t)
    writeFails := fun _ => false }

/-- Template environment whose templates interpolate the generation
timestamp of the context (the context exposes `generation_date` to
templates for exactly this use). -/
def timestampEnv : TemplateEnv :=
  { templateExists := fun _ => false
    render := fun _ ctx => Except.ok ctx.generation_date
    writeFails := fun _ => false }

/-- The three files of the spec's concrete scenario. -/
def scenarioFiles : List (String × Entry) :=
  [("requirements.txt", Entry.readable "flask==2.3.0"),
   ("requirements-dev.txt", Entry.readable "pytest==7.4.0"),
   (".python-version", Entry.readable "3.11.4")]

/-- The spec's concrete scenario taken literally: a directory containing
exactly requirements.txt, requirements-dev.txt and .python-version — in
particular no file anywhere in the tree has the `.py` extension. -/
def scenarioNoPy : Project :=
  { files := scenarioFiles, extensions := [], dirs := [], pytestImports := false }

/-- The spec's concrete scenario plus one Python source file, so that the
detector's gate (`has_files_with_extension('py')`) passes. -/
def scenarioWithPy : Project :=
  { files := scenarioFiles ++ [("app.py", Entry.readable "")]
    extensions := ["py"], dirs := [], pytestImports := false }

/-- Detection result of the scenario, as passed on to the generator. -/
def scenarioDet : DetectionResult :=
  { language := some "python", framework := some "flask"
    package_manager := some "pip", python_version := some "3.11"
    test_framework := some "pytest" }

/-- A project holding a Maven manifest, Java sources and one Python file
anywhere in its tree. -/
def mixedProj : Project :=
  { files := [("pom.xml", Entry.readable "<project></project>")]
    extensions := ["java", "py"], dirs := [], pytestImports := false }

/-- A Maven project with Java sources and no Python or Node markers. -/
def mavenProj : Project :=
  { files := [("pom.xml", Entry.readable "<project></project>")]
    extensions := ["java"], dirs := [], pytestImports := false }

/-- A project with markers of four ecosystems at once. -/
def multiProj : Project :=
  { files := [("package.json", Entry.readable "{}"),
              ("pom.xml", Entry.readable "<project></project>")]
    extensions := ["py", "java", "csproj"], dirs := [], pytestImports := false }

/-- A project with one Python file and one entry that exists but cannot be
read (permission denied or undecodable bytes). -/
def unreadableProj : Project :=
  { files := [("secret.txt", Entry.unreadable)]
    extensions := ["py"], dirs := [], pytestImports := false }

/-- A project pinning its version in .python-version while runtime.txt
contradicts it. -/
def pinnedProj : Project :=
  { files := [(".python-version", Entry.readable "3.11.4"),
              ("runtime.txt", Entry.readable "python-3.9.7")]
    extensions := ["py"], dirs := [], pytestImports := false }

/-- The empty project directory. -/
def emptyProject : Project :=
  { files := [], extensions := [], dirs := [], pytestImports := false }

/-- A detection result with no keys of interest. -/
def emptyDet : DetectionResult :=
  { language := none, framework := none, package_manager := none
    python_version := none, test_framework := none }

/-! ## Theorems -/

theorem splitSep_cons (sep c : Char) (rest : List Char) :
    splitSep sep (c :: rest) =
      if c = sep then [] :: splitSep sep rest
      else
        match splitSep sep rest with
        | h :: t => (c :: h) :: t
        | [] => [[c]] := rfl

theorem splitSep_ne_nil (sep : Char) (l : List Char) : splitSep sep l ≠ [] := by
  cases l with
  | nil => simp [splitSep]
  | cons c rest =>
    rw [splitSep_cons]
    split
    · simp
    · cases h : splitSep sep rest <;> simp

theorem mem_splitSep_not_sep (sep : Char) (l : List Char) :
    ∀ x ∈ splitSep sep l, sep ∉ x := by
  induction l with
  | nil =>
    intro x hx
    simp [splitSep] at hx
    simp [hx]
  | cons c rest ih =>
    intro x hx
    rw [splitSep_cons] at hx
    by_cases hc : c = sep
    · rw [if_pos hc] at hx
      rcases List.mem_cons.mp hx with h1 | h1
      · simp [h1]
      · exact ih x h1
    · rw [if_neg hc] at hx
      cases hsp : splitSep sep rest with
      | nil => exact absurd hsp (splitSep_ne_nil sep rest)
      | cons hd tl =>
        rw [hsp] at hx
        rcases List.mem_cons.mp hx with h1 | h1
        · subst h1
          intro hmem
          rcases List.mem_cons.mp hmem with h2 | h2
          · exact hc h2.symm
          · exact ih hd (by rw [hsp]; exact List.mem_cons_self hd tl) h2
        · exact ih x (by rw [hsp]; exact List.mem_cons_of_mem hd h1)

theorem splitSep_append_no_sep (sep : Char) (a b : List Char) (ha : sep ∉ a) :
    splitSep sep (a ++ sep :: b) = a :: splitSep sep b := by
  induction a with
  | nil => simp [splitSep]
  | cons c t ih =>
    have hc : c ≠ sep := fun h => ha (h ▸ List.mem_cons_self c t)
    have ht : sep ∉ t := fun h => ha (List.mem_cons_of_mem c h)
    rw [List.cons_append, splitSep_cons, if_neg hc, ih ht]

theorem splitSep_no_sep (sep : Char) (a : List Char) (ha : sep ∉ a) :
    splitSep sep a = [a] := by
  induction a with
  | nil => simp [splitSep]
  | cons c t ih =>
    have hc : c ≠ sep := fun h => ha (h ▸ List.mem_cons_self c t)
    have ht : sep ∉ t := fun h => ha (List.mem_cons_of_mem c h)
    rw [splitSep_cons, if_neg hc, ih ht]

theorem toList_asString (l : List Char) : (l.asString).toList = l := rfl

theorem normalize_version_idem (v : String) :
    normalize_version (normalize_version v) = normalize_version v := by
  cases h : splitSep '.' v.toList with
  | nil => exact absurd h (splitSep_ne_nil '.' v.toList)
  | cons a t =>
    cases t with
    | nil =>
      have hv : normalize_version v = v := by
        unfold normalize_version
        rw [h]
      rw [hv, hv]
    | cons b t' =>
      have ha : '.' ∉ a :=
        mem_splitSep_not_sep '.' v.toList a (by rw [h]; exact List.mem_cons_self _ _)
      have hb : '.' ∉ b := by
        refine mem_splitSep_not_sep '.' v.toList b ?_
        rw [h]
        exact List.mem_cons_of_mem a (List.mem_cons_self b t')
      have hv : normalize_version v = (a ++ '.' :: b).asString := by
        unfold normalize_version
        rw [h]
      rw [hv]
      unfold normalize_version
      rw [toList_asString, splitSep_append_no_sep '.' a b ha, splitSep_no_sep '.' b hb]

theorem dictLookup_nil (k : String) : dictLookup [] k = none := rfl

theorem dictLookup_cons (e : String × String) (m : List (String × String)) (k : String) :
    dictLookup (e :: m) k = if e.1 = k then some e.2 else dictLookup m k := rfl

theorem dictHas_eq_isSome (m : List (String × String)) (k : String) :
    dictHas m k = (dictLookup m k).isSome := rfl

theorem dictLookup_insert (m : List (String × String)) (k v k' : String) :
    dictLookup (dictInsert m k v) k' = if k' = k then some v else dictLookup m k' := by
  induction m with
  | nil =>
    show dictLookup [(k, v)] k' = _
    rw [dictLookup_cons]
    by_cases h : k = k'
    · rw [if_pos (show (k, v).1 = k' from h), if_pos h.symm]
    · rw [if_neg (show ¬(k, v).1 = k' from h), if_neg (fun hh => h hh.symm)]
  | cons e m ih =>
    show dictLookup (if e.1 = k then (k, v) :: m else e :: dictInsert m k v) k' = _
    by_cases h1 : e.1 = k
    · rw [if_pos h1, dictLookup_cons, dictLookup_cons]
      by_cases h2 : k = k'
      · rw [if_pos h2, if_pos h2.symm]
      · rw [if_neg h2, if_neg (fun hh => h2 hh.symm), if_neg (h1 ▸ h2)]
    · rw [if_neg h1, dictLookup_cons, dictLookup_cons, ih]
      by_cases h2 : k' = k
      · rw [if_pos h2, if_neg (fun hh : e.1 = k' => h1 (hh.trans h2)), if_pos h2]
      · rw [if_neg h2, if_neg h2]

theorem applyWrites_nil (fs : List (String × String)) : applyWrites fs [] = fs := rfl

theorem applyWrites_cons (fs : List (String × String)) (w : String × String)
    (ws : List (String × String)) :
    applyWrites fs (w :: ws) = applyWrites (dictInsert fs w.1 w.2) ws := rfl

theorem lastW_nil (k : String) : lastW [] k = none := rfl

theorem lastW_cons (w : String × String) (ws : List (String × String)) (k : String) :
    lastW (w :: ws) k =
      match lastW ws k with
      | some v => some v
      | none => if w.1 = k then some w.2 else none := rfl

theorem dictLookup_applyWrites (ws : List (String × String)) (fs : List (String × String))
    (k : String) :
    dictLookup (applyWrites fs ws) k =
      match lastW ws k with
      | some v => some v
      | none => dictLookup fs k := by
  induction ws generalizing fs with
  | nil => rw [applyWrites_nil, lastW_nil]
  | cons w ws ih =>
    rw [applyWrites_cons, lastW_cons, ih, dictLookup_insert]
    cases h : lastW ws k with
    | some v => rfl
    | none =>
      by_cases h2 : w.1 = k
      · rw [if_pos h2, if_pos h2.symm]
      · rw [if_neg h2, if_neg (fun hh => h2 hh.symm)]

theorem applyWrites_overwrite_idem (fs ws : List (String × String)) (k : String) :
    dictLookup (applyWrites (applyWrites fs ws) ws) k = dictLookup (applyWrites fs ws) k := by
  rw [dictLookup_applyWrites, dictLookup_applyWrites]
  cases h : lastW ws k with
  | some v => rfl
  | none => rfl

theorem dictHas_insert (m : List (String × String)) (k v k' : String) :
    dictHas (dictInsert m k v) k' = (dictHas m k' || decide (k' = k)) := by
  rw [dictHas_eq_isSome, dictHas_eq_isSome, dictLookup_insert]
  by_cases h : k' = k
  · simp [h]
  · simp [h]

theorem stepPlatform_files (env : TemplateEnv) (ctx : TemplateContext)
    (outDir : String) (acc : GenAcc) (pl k : String) :
    dictHas (stepPlatform env ctx outDir acc pl).files k =
      (dictHas acc.files k || (decide (k = pl) && platformOk env ctx outDir pl)) := by
  unfold stepPlatform platformOk
  cases h : get_platform_template_map.find? (fun e => e.1 = pl) with
  | none => simp
  | some e =>
    cases ha : attempt env e.2.template ctx (outDir ++ "/" ++ e.2.output) with
    | ok c => simp [attemptOk, ha, Except.toBool, dictHas_insert]
    | error m => simp [attemptOk, ha, Except.toBool]

theorem genLoop_cons (env : TemplateEnv) (ctx : TemplateContext) (outDir : String)
    (acc : GenAcc) (pl : String) (rest : List String) :
    genLoop env ctx outDir acc (pl :: rest) =
      genLoop env ctx outDir (stepPlatform env ctx outDir acc pl) rest := rfl

theorem genLoop_files (env : TemplateEnv) (ctx : TemplateContext) (outDir : String) :
    ∀ (ps : List String) (acc : GenAcc) (k : String),
      dictHas (genLoop env ctx outDir acc ps).files k =
        (dictHas acc.files k || (ps.contains k && platformOk env ctx outDir k)) := by
  intro ps
  induction ps with
  | nil => intro acc k; simp [genLoop]
  | cons pl rest ih =>
    intro acc k
    rw [genLoop_cons, ih, stepPlatform_files]
    by_cases hk : k = pl
    · subst hk
      simp only [List.contains_cons, beq_self_eq_true, Bool.true_or, decide_True,
        Bool.true_and]
      cases platformOk env ctx outDir k <;> cases dictHas acc.files k <;>
        cases rest.contains k <;> simp
    · have h2 : (pl == k) = false := by
        simp [beq_iff_eq]
        exact fun hh => hk hh.symm
      simp [List.contains_cons, hk, h2, Bool.or_assoc]

theorem addExtra_files (env : TemplateEnv) (ctx : TemplateContext)
    (outDir tmpl outName key : String) (acc : GenAcc) (k : String) :
    dictHas (addExtra env ctx outDir tmpl outName key acc).files k =
      (dictHas acc.files k ||
        (decide (k = key) && env.templateExists tmpl &&
          attemptOk env tmpl ctx (outDir ++ "/" ++ outName))) := by
  unfold addExtra
  by_cases ht : env.templateExists tmpl = true
  · rw [if_pos ht]
    cases ha : attempt env tmpl ctx (outDir ++ "/" ++ outName) with
    | ok c => simp [ha, attemptOk, Except.toBool, dictHas_insert, ht]
    | error m => simp [ha, attemptOk, Except.toBool, ht]
  · rw [if_neg ht]
    rw [Bool.not_eq_true] at ht
    simp [ht]

theorem additional_files (env : TemplateEnv) (ctx : TemplateContext)
    (outDir : String) (acc : GenAcc) (k : String) :
    dictHas (_generate_additional_files env ctx outDir acc).files k =
      (dictHas acc.files k || extrasHas env ctx outDir k) := by
  unfold _generate_additional_files extrasHas
  rw [addExtra_files, addExtra_files, addExtra_files]
  simp [Bool.or_assoc]

theorem stepPlatform_notes_mono (env : TemplateEnv) (ctx : TemplateContext)
    (outDir : String) (acc : GenAcc) (pl x : String) (h : x ∈ acc.notes) :
    x ∈ (stepPlatform env ctx outDir acc pl).notes := by
  unfold stepPlatform
  cases hf : get_platform_template_map.find? (fun e => e.1 = pl) with
  | none => simp [h]
  | some e =>
    cases ha : attempt env e.2.template ctx (outDir ++ "/" ++ e.2.output) with
    | ok c => simp [ha, h]
    | error m => simp [ha, h]

theorem genLoop_notes_mono (env : TemplateEnv) (ctx : TemplateContext) (outDir : String) :
    ∀ (ps : List String) (acc : GenAcc) (x : String), x ∈ acc.notes →
      x ∈ (genLoop env ctx outDir acc ps).notes := by
  intro ps
  induction ps with
  | nil => intro acc x h; exact h
  | cons pl rest ih =>
    intro acc x h
    rw [genLoop_cons]
    exact ih _ x (stepPlatform_notes_mono env ctx outDir acc pl x h)

theorem genLoop_note_unknown (env : TemplateEnv) (ctx : TemplateContext) (outDir : String) :
    ∀ (ps : List String) (acc : GenAcc) (pl : String), pl ∈ ps →
      get_platform_template_map.find? (fun e => e.1 = pl) = none →
      ("Skipping unknown platform: " ++ pl) ∈ (genLoop env ctx outDir acc ps).notes := by
  intro ps
  induction ps with
  | nil => intro acc pl h; exact absurd h (List.not_mem_nil pl)
  | cons q rest ih =>
    intro acc pl hmem hf
    rcases List.mem_cons.mp hmem with h1 | h1
    · subst h1
      rw [genLoop_cons]
      apply genLoop_notes_mono
      unfold stepPlatform
      rw [hf]
      simp
    · rw [genLoop_cons]
      exact ih _ pl h1 hf

theorem addExtra_notes_mono (env : TemplateEnv) (ctx : TemplateContext)
    (outDir tmpl outName key : String) (acc : GenAcc) (x : String) (h : x ∈ acc.notes) :
    x ∈ (addExtra env ctx outDir tmpl outName key acc).notes := by
  unfold addExtra
  by_cases ht : env.templateExists tmpl = true
  · rw [if_pos ht]
    cases ha : attempt env tmpl ctx (outDir ++ "/" ++ outName) with
    | ok c => simp [ha, h]
    | error m => simp [ha, h]
  · rw [if_neg ht]
    exact h

theorem additional_notes_mono (env : TemplateEnv) (ctx : TemplateContext)
    (outDir : String) (acc : GenAcc) (x : String) (h : x ∈ acc.notes) :
    x ∈ (_generate_additional_files env ctx outDir acc).notes := by
  unfold _generate_additional_files
  exact addExtra_notes_mono _ _ _ _ _ _ _ _
    (addExtra_notes_mono _ _ _ _ _ _ _ _ (addExtra_notes_mono _ _ _ _ _ _ _ _ h))

/-- C3: for every requested platform list, a rendering or write failure on
one platform leaves that platform absent from generated_files (no error
marker) without affecting the other platforms, and an unknown platform is
recorded as a skip note while generation continues: the keys of
generated_files are exactly the requested platforms whose template lookup,
rendering and write succeed, plus the additional-file keys whose template
exists and succeeds. -/
theorem generate_isolates_platform_failures (env : TemplateEnv) (det : DetectionResult)
    (projFS : Project) (projName now outDir : String) (ps : List String) (k : String) :
    (dictHas (PythonGenerator_generate env det projFS projName now outDir
        (some ps)).generated_files k =
      (ps.contains k &&
          platformOk env (_prepare_context det projFS projName now) outDir k ||
        extrasHas env (_prepare_context det projFS projName now) outDir k)) ∧
    (∀ pl, pl ∈ ps → get_platform_template_map.find? (fun e => e.1 = pl) = none →
      ("Skipping unknown platform: " ++ pl) ∈
        (PythonGenerator_generate env det projFS projName now outDir (some ps)).notes) := by
  constructor
  · show dictHas (_generate_additional_files env _ outDir
        (genLoop env _ outDir { files := [], notes := [], writes := [] } ps)).files k = _
    rw [additional_files, genLoop_files]
    simp [dictHas, dictLookup]
  · intro pl hmem hf
    show ("Skipping unknown platform: " ++ pl) ∈
      (_generate_additional_files env _ outDir
        (genLoop env _ outDir { files := [], notes := [], writes := [] } ps)).notes
    exact additional_notes_mono _ _ _ _ _
      (genLoop_note_unknown env _ outDir ps _ pl hmem hf)

/-- C3 witness: requesting jenkins together with the unknown platform
"bogus" under the spec-modelled templates leaves "bogus" absent from
generated_files, records the skip note, and still generates jenkins. -/
theorem generate_isolates_platform_failures_witness :
    dictHas (PythonGenerator_generate specEnv emptyDet emptyProject "app" "t" "out"
      (some ["jenkins", "bogus"])).generated_files "bogus" = false ∧
    ("Skipping unknown platform: " ++ "bogus") ∈
      (PythonGenerator_generate specEnv emptyDet emptyProject "app" "t" "out"
        (some ["jenkins", "bogus"])).notes ∧
    dictHas (PythonGenerator_generate specEnv emptyDet emptyProject "app" "t" "out"
      (some ["jenkins", "bogus"])).generated_files "jenkins" = true := by
  refine ⟨?_, ?_, ?_⟩
  · rw [(generate_isolates_platform_failures specEnv emptyDet emptyProject "app" "t" "out"
      ["jenkins", "bogus"] "bogus").1]
    decide
  · exact (generate_isolates_platform_failures specEnv emptyDet emptyProject "app" "t" "out"
      ["jenkins", "bogus"] "bogus").2 "bogus" (by decide) (by decide)
  · rw [(generate_isolates_platform_failures specEnv emptyDet emptyProject "app" "t" "out"
      ["jenkins", "bogus"] "jenkins").1]
    decide

/-- C4 counterexample: the context embeds the invocation time
(`generation_date`, from `datetime.now()` in add_base_context), so two runs
with identical detection result and platform list but different clock
readings write different bytes when a template interpolates the timestamp. -/
theorem generate_not_time_invariant :
    (PythonGenerator_generate timestampEnv emptyDet emptyProject "app"
        "2024-01-01 10:00:00" "out" (some ["jenkins"])).writes =
      [("out/Jenkinsfile", "2024-01-01 10:00:00")] ∧
    (PythonGenerator_generate timestampEnv emptyDet emptyProject "app"
        "2024-01-02 10:00:00" "out" (some ["jenkins"])).writes =
      [("out/Jenkinsfile", "2024-01-02 10:00:00")] ∧
    ("2024-01-01 10:00:00" : String) ≠ "2024-01-02 10:00:00" := by
  refine ⟨by decide, by decide, by decide⟩

/-- C4 amended: generation is a pure function of the detection result,
project tree, platform list, template environment and the generation
timestamp, and writing is plain overwriting — replaying the same
invocation's writes a second time over the same output directory leaves
every file's content byte-identical to the single run. -/
theorem generate_rerun_overwrites_deterministically (env : TemplateEnv)
    (det : DetectionResult) (projFS : Project) (projName now outDir : String)
    (platforms : Option (List String)) (fs : List (String × String)) (k : String) :
    dictLookup
      (applyWrites
        (applyWrites fs
          (PythonGenerator_generate env det projFS projName now outDir platforms).writes)
        (PythonGenerator_generate env det projFS projName now outDir platforms).writes) k =
    dictLookup
      (applyWrites fs
        (PythonGenerator_generate env det projFS projName now outDir platforms).writes) k :=
  applyWrites_overwrite_idem fs
    (PythonGenerator_generate env det projFS projName now outDir platforms).writes k

/-- C5 counterexample: with templates present and rendering succeeding, an
explicitly empty platform list produces no Jenkins pipeline file, while the
omitted argument (None) does — the `['jenkins']` default applies only to
`platforms=None`, not to an empty collection. -/
theorem empty_platform_list_not_defaulted :
    dictHas (PythonGenerator_generate specEnv emptyDet emptyProject "app" "t" "out"
      (some [])).generated_files "jenkins" = false ∧
    dictHas (PythonGenerator_generate specEnv emptyDet emptyProject "app" "t" "out"
      none).generated_files "jenkins" = true := by
  refine ⟨by decide, by decide⟩

/-- C5 amended: Generate defaults the platform list to ['jenkins'] exactly
when no collection is supplied (Python `platforms=None`); an explicitly
empty collection is used as-is, so no platform pipeline file is generated
(only the additional files can appear in the result). -/
theorem generate_default_platforms (env : TemplateEnv) (det : DetectionResult)
    (projFS : Project) (projName now outDir : String) :
    PythonGenerator_generate env det projFS projName now outDir none =
      PythonGenerator_generate env det projFS projName now outDir (some ["jenkins"]) ∧
    (∀ pl, pl ∈ ["jenkins", "gitlab", "github"] →
      dictHas (PythonGenerator_generate env det projFS projName now outDir
        (some [])).generated_files pl = false) := by
  constructor
  · rfl
  · intro pl hpl
    show dictHas (_generate_additional_files env _ outDir
      (genLoop env _ outDir { files := [], notes := [], writes := [] } [])).files pl = false
    rw [additional_files]
    fin_cases hpl <;> simp [dictHas, dictLookup, extrasHas]

/-- C5 witness: under the spec-modelled templates an explicitly empty
platform list yields no gitlab file either. -/
theorem generate_default_platforms_witness :
    dictHas (PythonGenerator_generate specEnv emptyDet emptyProject "app" "t" "out"
      (some [])).generated_files "gitlab" = false :=
  (generate_default_platforms specEnv emptyDet emptyProject "app" "t" "out").2
    "gitlab" (by decide)

/-- C1 counterexample: the scenario directory as literally described —
requirements.txt with flask==2.3.0, requirements-dev.txt with
pytest==7.4.0, .python-version with 3.11.4, and nothing else — contains no
`.py` file, so the Python detector's gate fails and detection classifies
nothing at all. -/
theorem scenario_without_py_not_detected :
    PythonDetector_detect scenarioNoPy = none ∧ dispatch scenarioNoPy = none := by
  refine ⟨by decide, by decide⟩

/-- C1 amended (with the spec-modelled templates): once the scenario
directory additionally contains a Python source file, detection classifies
it as language python, framework flask, package manager pip, version 3.11
and test framework pytest, and generating for platform jenkins produces
exactly one Jenkins pipeline file plus one container build file. -/
theorem scenario_with_py_classified_and_generated (now : String) :
    PythonDetector_detect scenarioWithPy = some scenarioDet ∧
    (PythonGenerator_generate specEnv scenarioDet scenarioWithPy "myapp" now "out"
      (some ["jenkins"])).generated_files =
      [("jenkins", "out/Jenkinsfile"), ("dockerfile", "out/Dockerfile")] := by
  refine ⟨by decide, rfl⟩

/-- C2 counterexample: a project containing pom.xml and .java sources but
also one .py file somewhere in its tree is claimed by the python
classifier, which precedes every JVM classifier in the registry, so
detection does not return the build-tool-specific descriptor. -/
theorem mixed_project_python_preempts :
    dispatch mixedProj = some "python" ∧
    dispatch mixedProj ≠ some "maven" ∧ dispatch mixedProj ≠ some "gradle" := by
  refine ⟨by decide, by decide, by decide⟩

/-- C2 amended: the Java fallback's gate returns None whenever any
build-tool manifest exists, regardless of dispatcher order; and provided no
earlier-ordered ecosystem matches (no .py file, no package.json), a project
with a build-tool manifest is classified by the corresponding build-tool
classifier (maven for pom.xml, else gradle for build.gradle(.kts)). -/
theorem java_fallback_gate (p : Project) :
    ((file_exists p "pom.xml" || file_exists p "build.gradle" ||
        file_exists p "build.gradle.kts") = true → JavaDetector_detect p = none) ∧
    (has_files_with_extension p "py" = false → file_exists p "package.json" = false →
      file_exists p "pom.xml" = true → dispatch p = some "maven") ∧
    (has_files_with_extension p "py" = false → file_exists p "package.json" = false →
      file_exists p "pom.xml" = false →
      (file_exists p "build.gradle" || file_exists p "build.gradle.kts") = true →
      dispatch p = some "gradle") := by
  refine ⟨?_, ?_, ?_⟩
  · intro h
    simp [JavaDetector_detect, h]
  · intro h1 h2 h3
    have hp : detects "python" p = false := by simp [detects, PythonDetector_detect, h1]
    have hn : detects "node" p = false := by simp [detects, NodeDetector_detects, h2]
    have hm : detects "maven" p = true := by simp [detects, MavenDetector_detects, h3]
    show List.find? (fun n => detects n p) AVAILABLE_FRAMEWORKS = some "maven"
    unfold AVAILABLE_FRAMEWORKS
    simp [List.find?, hp, hn, hm]
  · intro h1 h2 h3 h4
    have hp : detects "python" p = false := by simp [detects, PythonDetector_detect, h1]
    have hn : detects "node" p = false := by simp [detects, NodeDetector_detects, h2]
    have hm : detects "maven" p = false := by simp [detects, MavenDetector_detects, h3]
    have hg : detects "gradle" p = true := by simp [detects, GradleDetector_detects, h4]
    show List.find? (fun n => detects n p) AVAILABLE_FRAMEWORKS = some "gradle"
    unfold AVAILABLE_FRAMEWORKS
    simp [List.find?, hp, hn, hm, hg]

/-- C2 witness: a Maven project with Java sources and no earlier-ecosystem
markers is dispatched to maven, and the Java fallback returns None on it. -/
theorem java_fallback_gate_witness :
    dispatch mavenProj = some "maven" ∧ JavaDetector_detect mavenProj = none := by
  have h := java_fallback_gate mavenProj
  exact ⟨h.2.1 (by decide) (by decide) (by decide), h.1 (by decide)⟩

/-- C6: the evidence readers are total over the modelled failure modes —
a raw read failure degrades to the empty string, a missing or
stat-failing entry reports absent, an unreadable entry exists but reads as
empty, and once the Python gate passes the detector always produces a
descriptor. -/
theorem evidence_readers_total (p : Project) (name : String) :
    (rawRead p name = Except.error () → read_file p name = "") ∧
    (file_exists p name = false → read_file p name = "") ∧
    (lookupEntry p name = some Entry.statError →
      file_exists p name = false ∧ read_file p name = "") ∧
    (lookupEntry p name = some Entry.unreadable →
      file_exists p name = true ∧ read_file p name = "") ∧
    (lookupEntry p name = none → file_exists p name = false ∧ read_file p name = "") ∧
    (has_files_with_extension p "py" = true → (PythonDetector_detect p).isSome = true) := by
  refine ⟨?_, ?_, ?_, ?_, ?_, ?_⟩
  · intro h
    simp [read_file, h]
  · intro h
    simp [read_file, h]
  · intro h
    have hf : file_exists p name = false := by simp [file_exists, h]
    exact ⟨hf, by simp [read_file, hf]⟩
  · intro h
    refine ⟨by simp [file_exists, h], ?_⟩
    simp [read_file, file_exists, rawRead, h]
  · intro h
    have hf : file_exists p name = false := by simp [file_exists, h]
    exact ⟨hf, by simp [read_file, hf]⟩
  · intro h
    simp [PythonDetector_detect, h]

/-- C6 witness: a project with one existing-but-unreadable file and a
Python source file — the readers degrade and detection still succeeds. -/
theorem evidence_readers_total_witness :
    file_exists unreadableProj "secret.txt" = true ∧
    read_file unreadableProj "secret.txt" = "" ∧
    (PythonDetector_detect unreadableProj).isSome = true := by
  have h := evidence_readers_total unreadableProj "secret.txt"
  exact ⟨(h.2.2.2.1 (by decide)).1, (h.2.2.2.1 (by decide)).2, h.2.2.2.2.2 (by decide)⟩

/-- C7: the Python version signal chain tries .python-version, then
runtime.txt, then pyproject.toml, then setup.py; the first source that
yields wins regardless of the later sources' content, whenever
.python-version exists its normalized stripped content is returned, and
when no source yields the result is the hard-coded default 3.11. -/
theorem python_version_chain (p : Project) :
    (file_exists p ".python-version" = true →
      _detect_python_version p =
        normalize_version (pyStrip (read_file p ".python-version").toList).asString) ∧
    (∀ v, file_exists p ".python-version" = false → runtimeSignal p = some v →
      _detect_python_version p = v) ∧
    (∀ v, file_exists p ".python-version" = false → runtimeSignal p = none →
      pyprojectSignal p = some v → _detect_python_version p = v) ∧
    (∀ v, file_exists p ".python-version" = false → runtimeSignal p = none →
      pyprojectSignal p = none → setupSignal p = some v → _detect_python_version p = v) ∧
    (file_exists p ".python-version" = false → runtimeSignal p = none →
      pyprojectSignal p = none → setupSignal p = none →
      _detect_python_version p = "3.11") := by
  refine ⟨?_, ?_, ?_, ?_, ?_⟩
  · intro h1
    simp [_detect_python_version, h1]
  · intro v h1 h2
    simp [_detect_python_version, h1, h2]
  · intro v h1 h2 h3
    simp [_detect_python_version, h1, h2, h3]
  · intro v h1 h2 h3 h4
    simp [_detect_python_version, h1, h2, h3, h4]
  · intro h1 h2 h3 h4
    simp [_detect_python_version, h1, h2, h3, h4]

/-- C7 witness: a project pinning 3.11.4 in .python-version while
runtime.txt says python-3.9.7 — the pinned file wins and normalizes. -/
theorem python_version_chain_witness :
    _detect_python_version pinnedProj =
      normalize_version (pyStrip (read_file pinnedProj ".python-version").toList).asString ∧
    _detect_python_version pinnedProj = "3.11" := by
  have h := (python_version_chain pinnedProj).1 (by decide)
  exact ⟨h, by rw [h]; decide⟩

/-- C8: version normalization is idempotent for every string, reduces
3.11.2 to 3.11, passes 3 through unchanged; strings with at least two
dot-separated components reduce to the first two rejoined by a dot, and
strings with fewer than two components pass through unchanged. -/
theorem normalize_version_spec :
    (∀ v, normalize_version (normalize_version v) = normalize_version v) ∧
    normalize_version "3.11.2" = "3.11" ∧
    normalize_version "3" = "3" ∧
    (∀ (v : String) (a b : List Char) (rest : List (List Char)),
      splitSep '.' v.toList = a :: b :: rest →
      normalize_version v = (a ++ '.' :: b).asString) ∧
    (∀ v : String, (splitSep '.' v.toList).length < 2 → normalize_version v = v) := by
  refine ⟨normalize_version_idem, by decide, by decide, ?_, ?_⟩
  · intro v a b rest h
    unfold normalize_version
    rw [h]
  · intro v h
    unfold normalize_version
    cases hs : splitSep '.' v.toList with
    | nil => rfl
    | cons a t =>
      cases t with
      | nil => rfl
      | cons b t2 =>
        exfalso
        rw [hs] at h
        simp only [List.length_cons] at h
        omega

/-- C8 witness: the two-component reduction applied at the concrete
splitting of 1.2.3. -/
theorem normalize_version_spec_witness :
    normalize_version "1.2.3" = (['1'] ++ '.' :: ['2']).asString :=
  normalize_version_spec.2.2.2.1 "1.2.3" ['1'] ['2'] [['3']] (by decide)

/-- C9: dependency parsing ignores comment and continuation lines and
strips version operators: a "# pytest" line and a "-r base.txt" line
contribute nothing, "flask==2.3.0" contributes exactly flask, and empty
lines contribute nothing. -/
theorem parse_dependencies_spec :
    parse_dependencies "# pytest" = ∅ ∧
    parse_dependencies "-r base.txt" = ∅ ∧
    parse_dependencies "flask==2.3.0" = {"flask"} ∧
    parse_dependencies "" = ∅ ∧
    (∀ ls1 ls2 : List (List Char), depsOfLines (ls1 ++ [] :: ls2) = depsOfLines (ls1 ++ ls2)) := by
  refine ⟨by decide, by decide, by decide, by decide, ?_⟩
  intro ls1 ls2
  simp [depsOfLines, List.filterMap_append, List.filterMap_cons,
    show parseDepLine [] = none from rfl]

/-- C10: the registry is tried in the fixed order python, node, maven,
gradle, java, dotnet, and the Python gate is any .py file anywhere in the
tree, so every project containing a .py file is dispatched to python —
never to any other ecosystem, whatever other markers it contains. -/
theorem python_first_in_registry :
    AVAILABLE_FRAMEWORKS = ["python", "node", "maven", "gradle", "java", "dotnet"] ∧
    (∀ p : Project, has_files_with_extension p "py" = true → dispatch p = some "python") := by
  refine ⟨rfl, ?_⟩
  intro p h
  have hd : detects "python" p = true := by simp [detects, PythonDetector_detect, h]
  show List.find? (fun n => detects n p) AVAILABLE_FRAMEWORKS = some "python"
  unfold AVAILABLE_FRAMEWORKS
  simp [List.find?, hd]

/-- C10 witness: a project with .py, .java, .csproj files, package.json
and pom.xml is still classified as python. -/
theorem python_first_in_registry_witness : dispatch multiProj = some "python" :=
  python_first_in_registry.2 multiProj (by decide)
